import Mathlib

/-!
Shallow embedding of the core of the STM32LibraryCollection repository:
the compile-time CRC-16 engine (`Crc16.hpp`), the non-allocating type-erased
callable (`__InplaceFunction.hpp`, and its earlier iteration
`__FixedCallback.hpp`), and the static per-tag callback registry
(`__CallbackManager.hpp`).  Machine integers (`uint8_t`, `uint16_t`) are
modelled as `Nat` with explicit `% 256` / `% 65536` at every point where the
C++ source performs a cast or an implicit conversion back to the narrow type.
-/

namespace STM32

namespace Crc16

/-- The five compile-time parameters of the `Crc16` class template:
`Crc16Polynomial`, `Crc16InitialValue`, `Crc16FinalXor`, `Crc16ReflectInput`,
`Crc16ReflectOutput` (all `std::uint16_t` / `bool` non-type template
arguments). -/
structure Config where
  polynomial : Nat
  initial_value : Nat
  final_xor : Nat
  reflect_input : Bool
  reflect_output : Bool

/-- `__Internal::__Reflect8`: bit-reverse an 8-bit value by swapping adjacent
bits, then pairs, then nibbles.  Each statement casts back to `uint8_t`,
modelled by `% 256`. -/
def __Reflect8 (value : Nat) : Nat :=
  let v1 := (((value &&& 0x55) <<< 1) ||| ((value &&& 0xAA) >>> 1)) % 256
  let v2 := (((v1 &&& 0x33) <<< 2) ||| ((v1 &&& 0xCC) >>> 2)) % 256
  ((v2 <<< 4) ||| (v2 >>> 4)) % 256

/-- `__Internal::__Reflect16`: bit-reverse a 16-bit value by swapping adjacent
bits, pairs, nibbles, then bytes.  Each statement casts back to `uint16_t`,
modelled by `% 65536`. -/
def __Reflect16 (value : Nat) : Nat :=
  let v1 := (((value &&& 0x5555) <<< 1) ||| ((value &&& 0xAAAA) >>> 1)) % 65536
  let v2 := (((v1 &&& 0x3333) <<< 2) ||| ((v1 &&& 0xCCCC) >>> 2)) % 65536
  let v3 := (((v2 &&& 0x0F0F) <<< 4) ||| ((v2 &&& 0xF0F0) >>> 4)) % 65536
  ((v3 <<< 8) ||| (v3 >>> 8)) % 65536

/-- One inner-loop iteration of `__GenerateCrc16Table` in the
`ReflectInputV = true` branch: test the low bit, shift right, conditionally
XOR with the reflected polynomial (cast back to `uint16_t`). -/
def tableStepReflected (rpoly crc : Nat) : Nat :=
  if crc &&& 0x0001 ≠ 0 then ((crc >>> 1) ^^^ rpoly) % 65536
  else crc >>> 1

/-- One inner-loop iteration of `__GenerateCrc16Table` in the
`ReflectInputV = false` branch: test the high bit, shift left, conditionally
XOR with the polynomial (cast back to `uint16_t`). -/
def tableStepNormal (poly crc : Nat) : Nat :=
  if crc &&& 0x8000 ≠ 0 then ((crc <<< 1) ^^^ poly) % 65536
  else (crc <<< 1) % 65536

/-- Entry `i` of the 256-entry lookup table produced by
`__Internal::__GenerateCrc16Table<PolynomialV, ReflectInputV>`: eight
polynomial-division steps, seeded with `i` (reflected branch) or with
`i << 8` cast to `uint16_t` (non-reflected branch). -/
def __GenerateCrc16Table (poly : Nat) (reflectIn : Bool) (i : Nat) : Nat :=
  if reflectIn then (tableStepReflected (__Reflect16 poly))^[8] i
  else (tableStepNormal poly)^[8] ((i <<< 8) % 65536)

/-- `Crc16::s_table`, the compile-time lookup table of the class template:
a pure function of `(polynomial, reflect_input)`. -/
def s_table (poly : Nat) (reflectIn : Bool) (i : Nat) : Nat :=
  __GenerateCrc16Table poly reflectIn i

/-- Loop body shared by `Calculate` and `Update` in the `reflect_input`
branch: `index = uint8(crc ^ byte); crc = uint16((crc >> 8) ^ s_table[index])`. -/
def stepReflected (poly c b : Nat) : Nat :=
  ((c >>> 8) ^^^ s_table poly true ((c ^^^ b) % 256)) % 65536

/-- Loop body shared by `Calculate` and `Update` in the non-`reflect_input`
branch: `index = uint8((crc >> 8) ^ byte); crc = uint16((crc << 8) ^ s_table[index])`. -/
def stepNormal (poly c b : Nat) : Nat :=
  (((c <<< 8) ^^^ s_table poly false (((c >>> 8) ^^^ b) % 256)) % 65536)

/-- `Crc16::Calculate(const std::uint8_t*, std::size_t)`: start from
`initial_value`, run the table-driven per-byte loop (LSB-first when
`reflect_input`, MSB-first otherwise), bit-reverse the accumulator when
`reflect_output != reflect_input`, and return `crc ^ final_xor` as
`uint16_t`. -/
def Calculate (cfg : Config) (data : List Nat) : Nat :=
  let crc := cfg.initial_value
  let crc :=
    if cfg.reflect_input then data.foldl (stepReflected cfg.polynomial) crc
    else data.foldl (stepNormal cfg.polynomial) crc
  let crc := if cfg.reflect_output ≠ cfg.reflect_input then __Reflect16 crc else crc
  (crc ^^^ cfg.final_xor) % 65536

/-- `Crc16::Update`: the same per-byte loop as `Calculate`, applied to a
caller-supplied running CRC, with no post-step. -/
def Update (cfg : Config) (crc : Nat) (data : List Nat) : Nat :=
  if cfg.reflect_input then data.foldl (stepReflected cfg.polynomial) crc
  else data.foldl (stepNormal cfg.polynomial) crc

/-- `Crc16::Finalize`: bit-reverse the accumulator when
`reflect_output != reflect_input`, then return `crc ^ final_xor` as
`uint16_t`. -/
def Finalize (cfg : Config) (crc : Nat) : Nat :=
  let crc := if cfg.reflect_output ≠ cfg.reflect_input then __Reflect16 crc else crc
  (crc ^^^ cfg.final_xor) % 65536

/-- `Crc16::Init`: the configured initial value, for streaming use. -/
def Init (cfg : Config) : Nat :=
  cfg.initial_value

/-- The `Crc16CcittFalse` alias: poly 0x1021, init 0xFFFF, no final XOR,
no reflection. -/
def Crc16CcittFalse : Config :=
  ⟨0x1021, 0xFFFF, 0x0000, false, false⟩

/-- The `Crc16Xmodem` alias: poly 0x1021, init 0x0000, no final XOR,
no reflection. -/
def Crc16Xmodem : Config :=
  ⟨0x1021, 0x0000, 0x0000, false, false⟩

/-- The `Crc16Modbus` alias: poly 0x8005, init 0xFFFF, no final XOR,
input and output reflection. -/
def Crc16Modbus : Config :=
  ⟨0x8005, 0xFFFF, 0x0000, true, true⟩

/-- The nine ASCII bytes of the standard CRC check string "123456789". -/
def checkBytes : List Nat :=
  [0x31, 0x32, 0x33, 0x34, 0x35, 0x36, 0x37, 0x38, 0x39]

end Crc16

namespace __Internal

/-- Model of `__Internal::__InplaceFunction<CapacityV, AlignmentV>`.  The
three type-erasing pointers (`m_invoke`, `m_destroy`, `m_move`) are set
together in the callable constructor and cleared together in `Reset`, the
move constructor and the move assignment, so the whole erased state is either
empty or a live callable; the stored callable's observable behavior is a
state transformer on an abstract world `σ`, and the state is its `Option`. -/
structure __InplaceFunction (σ : Type) where
  slot : Option (σ → σ)

namespace __InplaceFunction

/-- The default constructor (and the `nullptr` constructor that delegates to
it): all pointers null, no callable stored. -/
def mk_empty (σ : Type) : __InplaceFunction σ :=
  ⟨none⟩

/-- The constructor from a callable `F`: placement-constructs `f` in the
buffer and installs the invoke/destroy/move pointers for `decay_t<F>`. -/
def of_callable (f : σ → σ) : __InplaceFunction σ :=
  ⟨some f⟩

/-- `operator bool`: `m_invoke != nullptr`. -/
def is_set (fn : __InplaceFunction σ) : Bool :=
  fn.slot.isSome

/-- `operator()`: if `m_invoke` is set, invoke the stored callable on the
world; otherwise do nothing. -/
def call (fn : __InplaceFunction σ) (s : σ) : σ :=
  match fn.slot with
  | some f => f s
  | none => s

/-- `Reset()`: destroy the stored callable if any and null all three
pointers. -/
def Reset (fn : __InplaceFunction σ) : __InplaceFunction σ :=
  ⟨none⟩

/-- `operator=(nullptr_t)`: `Reset()` then return `*this`. -/
def assign_null (fn : __InplaceFunction σ) : __InplaceFunction σ :=
  Reset fn

/-- `operator=(F&&)` from a callable: `Reset()`, then move-assign from a
temporary `__InplaceFunction(f)`. -/
def assign_callable (fn : __InplaceFunction σ) (f : σ → σ) : __InplaceFunction σ :=
  ⟨some f⟩

/-- The move constructor, acting on the distinct source object: the new
object copies the three pointers and relocates the stored callable; the
source's pointers are nulled.  Returns (constructed object, source after). -/
def move_ctor (src : __InplaceFunction σ) : __InplaceFunction σ × __InplaceFunction σ :=
  (⟨src.slot⟩, ⟨none⟩)

/-- The move assignment `operator=(__InplaceFunction&&)` in the
`this != &other` case: `Reset()` the target, copy the pointers, relocate the
stored callable, null the source.  Returns (target after, source after). -/
def move_assign (tgt src : __InplaceFunction σ) : __InplaceFunction σ × __InplaceFunction σ :=
  (⟨src.slot⟩, ⟨none⟩)

/-- The full move assignment on an addressed store of `__InplaceFunction`
objects, including the `if (this != &other)` aliasing guard: when the two
addresses coincide the body is skipped and the store is unchanged; otherwise
the target is reset and takes the source's callable, and the source is
nulled. -/
def move_assign_mem [DecidableEq ι] (m : ι → __InplaceFunction σ) (this other : ι) :
    ι → __InplaceFunction σ :=
  if this = other then m
  else fun i =>
    if i = this then ⟨(m other).slot⟩
    else if i = other then ⟨none⟩
    else m i

end __InplaceFunction

/-- Model of `__Internal::__FixedCallback<CapacityV, AlignmentV>`, the
earlier design iteration of the in-place callable; its code is embedded
separately from `__FixedCallback.hpp`, on the same `Option`-of-behavior
state. -/
structure __FixedCallback (σ : Type) where
  slot : Option (σ → σ)

namespace __FixedCallback

/-- `__FixedCallback` default constructor (and `nullptr` constructor). -/
def mk_empty (σ : Type) : __FixedCallback σ :=
  ⟨none⟩

/-- `__FixedCallback` constructor from a callable. -/
def of_callable (f : σ → σ) : __FixedCallback σ :=
  ⟨some f⟩

/-- `__FixedCallback::operator bool`: `m_invoke != nullptr`. -/
def is_set (fn : __FixedCallback σ) : Bool :=
  fn.slot.isSome

/-- `__FixedCallback::operator()`: invoke when `m_invoke` is set, else do
nothing. -/
def call (fn : __FixedCallback σ) (s : σ) : σ :=
  match fn.slot with
  | some f => f s
  | none => s

/-- `__FixedCallback::Reset()`. -/
def Reset (fn : __FixedCallback σ) : __FixedCallback σ :=
  ⟨none⟩

/-- `__FixedCallback::operator=(nullptr_t)`. -/
def assign_null (fn : __FixedCallback σ) : __FixedCallback σ :=
  Reset fn

/-- `__FixedCallback::operator=(F&&)` from a callable. -/
def assign_callable (fn : __FixedCallback σ) (f : σ → σ) : __FixedCallback σ :=
  ⟨some f⟩

/-- `__FixedCallback` move constructor (distinct source). -/
def move_ctor (src : __FixedCallback σ) : __FixedCallback σ × __FixedCallback σ :=
  (⟨src.slot⟩, ⟨none⟩)

/-- `__FixedCallback` move assignment in the `this != &other` case. -/
def move_assign (tgt src : __FixedCallback σ) : __FixedCallback σ × __FixedCallback σ :=
  (⟨src.slot⟩, ⟨none⟩)

/-- `__FixedCallback` move assignment with the aliasing guard, on an
addressed store. -/
def move_assign_mem [DecidableEq ι] (m : ι → __FixedCallback σ) (this other : ι) :
    ι → __FixedCallback σ :=
  if this = other then m
  else fun i =>
    if i = this then ⟨(m other).slot⟩
    else if i = other then ⟨none⟩
    else m i

end __FixedCallback

/-- The static data of one instantiation
`__CallbackManager<HandleT, UniqueTagT>`: the two `static inline`
`__InplaceFunction<>` members. -/
structure __CallbackManager (σ : Type) where
  m_receive_complete_callback : __InplaceFunction σ
  m_transmit_complete_callback : __InplaceFunction σ

namespace __CallbackManager

/-- The state at program start: both static members value-initialized
empty (`static inline CallbackT m_...{}`). -/
def initial_state (σ : Type) : __CallbackManager σ :=
  ⟨__InplaceFunction.mk_empty σ, __InplaceFunction.mk_empty σ⟩

/-- `RegisterReceiveCompleteCallback`: move-assign the argument into the
receive slot. -/
def RegisterReceiveCompleteCallback (st : __CallbackManager σ)
    (cb : __InplaceFunction σ) : __CallbackManager σ :=
  { st with m_receive_complete_callback :=
      (__InplaceFunction.move_assign st.m_receive_complete_callback cb).1 }

/-- `RegisterTransmitCompleteCallback`: move-assign the argument into the
transmit slot. -/
def RegisterTransmitCompleteCallback (st : __CallbackManager σ)
    (cb : __InplaceFunction σ) : __CallbackManager σ :=
  { st with m_transmit_complete_callback :=
      (__InplaceFunction.move_assign st.m_transmit_complete_callback cb).1 }

/-- The HAL trampoline `ReceiveCompleteCallback(HandleT*)`: the handle is
ignored; if the receive slot tests true (`operator bool`), invoke it. -/
def ReceiveCompleteCallback (st : __CallbackManager σ) (s : σ) : σ :=
  if st.m_receive_complete_callback.is_set then st.m_receive_complete_callback.call s
  else s

/-- The HAL trampoline `TransmitCompleteCallback(HandleT*)`: the handle is
ignored; if the transmit slot tests true, invoke it. -/
def TransmitCompleteCallback (st : __CallbackManager σ) (s : σ) : σ :=
  if st.m_transmit_complete_callback.is_set then st.m_transmit_complete_callback.call s
  else s

/-- `UnRegisterCallbacks`: assign `nullptr` to both slots. -/
def UnRegisterCallbacks (st : __CallbackManager σ) : __CallbackManager σ :=
  ⟨st.m_receive_complete_callback.assign_null,
   st.m_transmit_complete_callback.assign_null⟩

end __CallbackManager

/-- The static storage of all instantiations of
`__CallbackManager<HandleT, ·>` for one handle type: in C++ each distinct
`UniqueTagT` type argument instantiates its own pair of `static inline`
members, so the global state is a map from tag types (`κ`) to per-tag
manager state. -/
def RegistryState (κ σ : Type) : Type :=
  κ → __CallbackManager σ

/-- `RegisterReceiveCompleteCallback` on the instantiation keyed by tag `t`:
only that instantiation's static members are touched. -/
def register_receive_at [DecidableEq κ] (g : RegistryState κ σ) (t : κ)
    (cb : __InplaceFunction σ) : RegistryState κ σ :=
  fun u => if u = t then __CallbackManager.RegisterReceiveCompleteCallback (g u) cb else g u

/-- `RegisterTransmitCompleteCallback` on the instantiation keyed by tag
`t`. -/
def register_transmit_at [DecidableEq κ] (g : RegistryState κ σ) (t : κ)
    (cb : __InplaceFunction σ) : RegistryState κ σ :=
  fun u => if u = t then __CallbackManager.RegisterTransmitCompleteCallback (g u) cb else g u

/-- `UnRegisterCallbacks` on the instantiation keyed by tag `t`. -/
def unregister_at [DecidableEq κ] (g : RegistryState κ σ) (t : κ) : RegistryState κ σ :=
  fun u => if u = t then __CallbackManager.UnRegisterCallbacks (g u) else g u

/-- Invoking tag `t`'s receive trampoline: reads only the instantiation
keyed by `t` and modifies no registry state. -/
def receive_trampoline_at (g : RegistryState κ σ) (t : κ) (s : σ) : σ :=
  __CallbackManager.ReceiveCompleteCallback (g t) s

/-- One client-visible operation on a collection of fixed-capacity
type-erased callable objects, addressed by `Nat`.  The alphabet covers the
whole client interface of the two classes: default construction (at the next
fresh address), construction from a callable, move construction from an
existing object (which also empties the source), move assignment between two
addresses (including self-assignment, guarded in the source by
`this != &other`), assignment from a callable, assignment from `nullptr`,
`Reset`, invocation via `operator()` (its effect on the world is observable),
and the is-set query via `operator bool` (its result is recorded). -/
inductive CallbackOp (σ : Type) where
  | defaultCtor
  | ctorFromCallable (f : σ → σ)
  | moveCtor (src : Nat)
  | moveAssign (dst src : Nat)
  | assign (dst : Nat) (f : σ → σ)
  | assignNull (dst : Nat)
  | reset (dst : Nat)
  | invoke (a : Nat)
  | query (a : Nat)

/-- A run state over `__FixedCallback` objects: the addressed store, the
next fresh address, the observable world, and the recorded is-set query
results. -/
structure FixedRunState (σ : Type) where
  mem : Nat → __FixedCallback σ
  next : Nat
  world : σ
  queries : List Bool

/-- A run state over `__InplaceFunction` objects. -/
structure InplaceRunState (σ : Type) where
  mem : Nat → __InplaceFunction σ
  next : Nat
  world : σ
  queries : List Bool

/-- Apply one operation to a `__FixedCallback` run state, using the
embedded operations of `__FixedCallback.hpp`. -/
def runFixedOp (st : FixedRunState σ) : CallbackOp σ → FixedRunState σ
  | .defaultCtor =>
      { st with
        mem := fun i => if i = st.next then __FixedCallback.mk_empty σ else st.mem i,
        next := st.next + 1 }
  | .ctorFromCallable f =>
      { st with
        mem := fun i => if i = st.next then __FixedCallback.of_callable f else st.mem i,
        next := st.next + 1 }
  | .moveCtor src =>
      { st with
        mem := fun i =>
          if i = st.next then (__FixedCallback.move_ctor (st.mem src)).1
          else if i = src then (__FixedCallback.move_ctor (st.mem src)).2
          else st.mem i,
        next := st.next + 1 }
  | .moveAssign dst src =>
      { st with mem := __FixedCallback.move_assign_mem st.mem dst src }
  | .assign dst f =>
      { st with mem := fun i => if i = dst then (st.mem dst).assign_callable f else st.mem i }
  | .assignNull dst =>
      { st with mem := fun i => if i = dst then (st.mem dst).assign_null else st.mem i }
  | .reset dst =>
      { st with mem := fun i => if i = dst then (st.mem dst).Reset else st.mem i }
  | .invoke a =>
      { st with world := (st.mem a).call st.world }
  | .query a =>
      { st with queries := st.queries ++ [(st.mem a).is_set] }

/-- Apply one operation to an `__InplaceFunction` run state, using the
embedded operations of `__InplaceFunction.hpp`. -/
def runInplaceOp (st : InplaceRunState σ) : CallbackOp σ → InplaceRunState σ
  | .defaultCtor =>
      { st with
        mem := fun i => if i = st.next then __InplaceFunction.mk_empty σ else st.mem i,
        next := st.next + 1 }
  | .ctorFromCallable f =>
      { st with
        mem := fun i => if i = st.next then __InplaceFunction.of_callable f else st.mem i,
        next := st.next + 1 }
  | .moveCtor src =>
      { st with
        mem := fun i =>
          if i = st.next then (__InplaceFunction.move_ctor (st.mem src)).1
          else if i = src then (__InplaceFunction.move_ctor (st.mem src)).2
          else st.mem i,
        next := st.next + 1 }
  | .moveAssign dst src =>
      { st with mem := __InplaceFunction.move_assign_mem st.mem dst src }
  | .assign dst f =>
      { st with mem := fun i => if i = dst then (st.mem dst).assign_callable f else st.mem i }
  | .assignNull dst =>
      { st with mem := fun i => if i = dst then (st.mem dst).assign_null else st.mem i }
  | .reset dst =>
      { st with mem := fun i => if i = dst then (st.mem dst).Reset else st.mem i }
  | .invoke a =>
      { st with world := (st.mem a).call st.world }
  | .query a =>
      { st with queries := st.queries ++ [(st.mem a).is_set] }

/-- Run a sequence of operations over `__FixedCallback` objects. -/
def runFixed : List (CallbackOp σ) → FixedRunState σ → FixedRunState σ
  | [], st => st
  | op :: ops, st => runFixed ops (runFixedOp st op)

/-- Run a sequence of operations over `__InplaceFunction` objects. -/
def runInplace : List (CallbackOp σ) → InplaceRunState σ → InplaceRunState σ
  | [], st => st
  | op :: ops, st => runInplace ops (runInplaceOp st op)

/-- The initial `__FixedCallback` run state: nothing constructed yet. -/
def initFixedState (σ : Type) (s : σ) : FixedRunState σ :=
  ⟨fun _ => __FixedCallback.mk_empty σ, 0, s, []⟩

/-- The initial `__InplaceFunction` run state. -/
def initInplaceState (σ : Type) (s : σ) : InplaceRunState σ :=
  ⟨fun _ => __InplaceFunction.mk_empty σ, 0, s, []⟩

/-- Calling a `__FixedCallback` and an `__InplaceFunction` with equal
stored state has equal effect on the world. -/
theorem call_congr (fc : __FixedCallback σ) (ifn : __InplaceFunction σ) (s : σ)
    (h : fc.slot = ifn.slot) : fc.call s = ifn.call s := by
  unfold __FixedCallback.call __InplaceFunction.call
  rw [h]

/-- The is-set queries of a `__FixedCallback` and an `__InplaceFunction`
with equal stored state agree. -/
theorem is_set_congr (fc : __FixedCallback σ) (ifn : __InplaceFunction σ)
    (h : fc.slot = ifn.slot) : fc.is_set = ifn.is_set := by
  unfold __FixedCallback.is_set __InplaceFunction.is_set
  rw [h]

/-- A bisimulation for the two run functions: states that agree on every
stored slot, the next address, the world, and the query trace still agree
after running any operation sequence. -/
theorem run_bisim (σ : Type) (ops : List (CallbackOp σ)) :
    ∀ (stF : FixedRunState σ) (stI : InplaceRunState σ),
      (∀ i, (stF.mem i).slot = (stI.mem i).slot) →
      stF.next = stI.next → stF.world = stI.world → stF.queries = stI.queries →
      (∀ i, ((runFixed ops stF).mem i).slot = ((runInplace ops stI).mem i).slot)
        ∧ (runFixed ops stF).next = (runInplace ops stI).next
        ∧ (runFixed ops stF).world = (runInplace ops stI).world
        ∧ (runFixed ops stF).queries = (runInplace ops stI).queries := by
  induction ops with
  | nil => exact fun stF stI h1 h2 h3 h4 => ⟨h1, h2, h3, h4⟩
  | cons op ops ih =>
    intro stF stI h1 h2 h3 h4
    cases op with
    | defaultCtor =>
      refine ih _ _ (fun i => ?_) (by simp [runFixedOp, runInplaceOp, h2])
        h3 h4
      simp only [runFixedOp, runInplaceOp, h2]
      split
      · rfl
      · exact h1 i
    | ctorFromCallable f =>
      refine ih _ _ (fun i => ?_) (by simp [runFixedOp, runInplaceOp, h2]) h3 h4
      simp only [runFixedOp, runInplaceOp, h2]
      split
      · rfl
      · exact h1 i
    | moveCtor src =>
      refine ih _ _ (fun i => ?_) (by simp [runFixedOp, runInplaceOp, h2]) h3 h4
      simp only [runFixedOp, runInplaceOp, h2]
      split
      · exact h1 src
      · split
        · rfl
        · exact h1 i
    | moveAssign dst src =>
      refine ih _ _ (fun i => ?_) h2 h3 h4
      simp only [runFixedOp, runInplaceOp,
        __FixedCallback.move_assign_mem, __InplaceFunction.move_assign_mem]
      by_cases hds : dst = src
      · simpa [hds] using h1 i
      · simp only [if_neg hds]
        split
        · exact h1 src
        · split
          · rfl
          · exact h1 i
    | assign dst f =>
      refine ih _ _ (fun i => ?_) h2 h3 h4
      simp only [runFixedOp, runInplaceOp]
      split
      · rfl
      · exact h1 i
    | assignNull dst =>
      refine ih _ _ (fun i => ?_) h2 h3 h4
      simp only [runFixedOp, runInplaceOp]
      split
      · rfl
      · exact h1 i
    | reset dst =>
      refine ih _ _ (fun i => ?_) h2 h3 h4
      simp only [runFixedOp, runInplaceOp]
      split
      · rfl
      · exact h1 i
    | invoke a =>
      refine ih _ _ h1 h2 ?_ h4
      simp only [runFixedOp, runInplaceOp]
      rw [h3, call_congr _ _ _ (h1 a)]
    | query a =>
      refine ih _ _ h1 h2 h3 ?_
      simp only [runFixedOp, runInplaceOp]
      rw [h4, is_set_congr _ _ (h1 a)]

end __Internal

end STM32

open STM32.Crc16 STM32.__Internal

/-- Claim C1: for every CRC-16 configuration and every byte sequence split
into chunks `a` and `b`, `Finalize (Update (Update (Init) a) b)` equals
`Calculate (a ++ b)`: streaming computation agrees with whole-buffer
computation for any split. -/
theorem crc16_streaming_eq_whole (cfg : Config) (a b : List Nat) :
    Finalize cfg (Update cfg (Update cfg (Init cfg) a) b) = Calculate cfg (a ++ b) := by
  cases hri : cfg.reflect_input <;>
    simp [Calculate, Update, Init, Finalize, hri, List.foldl_append]

/-- Claim C2: the MODBUS configuration (poly 0x8005, init 0xFFFF, input and
output reflection, no final XOR) computes 0x4B37 on the nine ASCII bytes of
"123456789". -/
theorem crc16_modbus_check : Calculate Crc16Modbus checkBytes = 0x4B37 := by
  decide

/-- Claim C3: the CCITT-FALSE configuration (poly 0x1021, init 0xFFFF, no
reflection, no final XOR) computes 0x29B1 on the nine ASCII bytes of
"123456789". -/
theorem crc16_ccitt_false_check : Calculate Crc16CcittFalse checkBytes = 0x29B1 := by
  decide

/-- Claim C4: after the table-driven loop (whose result on the whole input
is `Update cfg (Init cfg) data`), `Calculate` bit-reverses the 16-bit
accumulator exactly when the output-reflect flag differs from the
input-reflect flag and then XORs with the final-XOR mask; and `Finalize`
applies exactly these same two steps to its argument. -/
theorem crc16_post_step (cfg : Config) (data : List Nat) (c : Nat) :
    (Calculate cfg data =
      ((if cfg.reflect_output ≠ cfg.reflect_input
          then __Reflect16 (Update cfg (Init cfg) data)
          else Update cfg (Init cfg) data) ^^^ cfg.final_xor) % 65536)
  ∧ (Finalize cfg c =
      ((if cfg.reflect_output ≠ cfg.reflect_input
          then __Reflect16 c else c) ^^^ cfg.final_xor) % 65536) := by
  constructor
  · cases hri : cfg.reflect_input <;> simp [Calculate, Update, Init, hri]
  · rfl

/-- Claim C5: for every configuration, `Calculate` of the empty byte
sequence is `Finalize` of the initial value (no table lookups are
performed), and in particular the XMODEM configuration yields 0x0000 on
empty input. -/
theorem crc16_empty_input (cfg : Config) :
    Calculate cfg [] = Finalize cfg cfg.initial_value
      ∧ Calculate Crc16Xmodem [] = 0x0000 := by
  constructor
  · cases hri : cfg.reflect_input <;> simp [Calculate, Finalize, hri]
  · decide

/-- Claim C6: the is-set query (`operator bool`) of `__InplaceFunction` is
false after default construction, after `Reset`, and in the moved-from
object of a move assignment or a move construction; it is true after
construction from a callable and after assignment from a callable, and the
target of a move whose source held a callable is set. -/
theorem inplace_is_set_lifecycle (σ : Type) (fn tgt src : __InplaceFunction σ) (f : σ → σ) :
    (__InplaceFunction.mk_empty σ).is_set = false
  ∧ fn.Reset.is_set = false
  ∧ (__InplaceFunction.move_assign tgt src).2.is_set = false
  ∧ (__InplaceFunction.move_ctor src).2.is_set = false
  ∧ (__InplaceFunction.of_callable f).is_set = true
  ∧ (fn.assign_callable f).is_set = true
  ∧ (src.is_set = true →
      (__InplaceFunction.move_assign tgt src).1.is_set = true
        ∧ (__InplaceFunction.move_ctor src).1.is_set = true) := by
  exact ⟨rfl, rfl, rfl, rfl, rfl, rfl, fun h => ⟨h, h⟩⟩

/-- Witness for claim C6 at a concrete instance: moving from an object that
holds a concrete callable leaves the target set. -/
theorem inplace_is_set_lifecycle_witness :
    (__InplaceFunction.move_assign (__InplaceFunction.mk_empty Nat)
        (__InplaceFunction.of_callable (fun n : Nat => n + 1))).1.is_set = true
      ∧ (__InplaceFunction.move_ctor
        (__InplaceFunction.of_callable (fun n : Nat => n + 1))).1.is_set = true :=
  (inplace_is_set_lifecycle Nat (__InplaceFunction.mk_empty Nat)
      (__InplaceFunction.mk_empty Nat)
      (__InplaceFunction.of_callable (fun n : Nat => n + 1))
      (fun n : Nat => n + 1)).2.2.2.2.2.2 (by rfl)

/-- Claim C7: the HAL trampolines invoked on a registry whose slots were
never set, or were cleared by `UnRegisterCallbacks` since the last set, do
nothing to the world; invoking an empty `__InplaceFunction` via `operator()`
likewise does nothing. -/
theorem trampoline_empty_noop (σ : Type) (st : STM32.__Internal.__CallbackManager σ) (s : σ) :
    STM32.__Internal.__CallbackManager.ReceiveCompleteCallback
        (STM32.__Internal.__CallbackManager.initial_state σ) s = s
  ∧ STM32.__Internal.__CallbackManager.TransmitCompleteCallback
        (STM32.__Internal.__CallbackManager.initial_state σ) s = s
  ∧ STM32.__Internal.__CallbackManager.ReceiveCompleteCallback st.UnRegisterCallbacks s = s
  ∧ STM32.__Internal.__CallbackManager.TransmitCompleteCallback st.UnRegisterCallbacks s = s
  ∧ (__InplaceFunction.mk_empty σ).call s = s := by
  exact ⟨rfl, rfl, rfl, rfl, rfl⟩

/-- Claim C8: two registry instantiations keyed by distinct unique tags own
independent static slot state: registering or clearing on tag `t` leaves tag
`u`'s manager state unchanged, and the effect of invoking tag `t`'s
trampoline depends only on tag `t`'s own state. -/
theorem registry_tag_independence (κ σ : Type) [DecidableEq κ] (g : RegistryState κ σ)
    (t u : κ) (cb : __InplaceFunction σ) (s : σ) (h : t ≠ u) :
    register_receive_at g t cb u = g u
  ∧ register_transmit_at g t cb u = g u
  ∧ unregister_at g t u = g u
  ∧ (∀ g' : RegistryState κ σ, g' t = g t →
      receive_trampoline_at g' t s = receive_trampoline_at g t s) := by
  refine ⟨?_, ?_, ?_, fun g' hg => ?_⟩
  · simp [register_receive_at, Ne.symm h]
  · simp [register_transmit_at, Ne.symm h]
  · simp [unregister_at, Ne.symm h]
  · simp [receive_trampoline_at, hg]

/-- Witness for claim C8 at concrete distinct tags 0 and 1 over `Nat`
worlds. -/
theorem registry_tag_independence_witness :
    register_receive_at (fun _ : Nat => STM32.__Internal.__CallbackManager.initial_state Nat) 0
        (__InplaceFunction.of_callable (fun n : Nat => n + 1)) 1
      = (fun _ : Nat => STM32.__Internal.__CallbackManager.initial_state Nat) 1 :=
  (registry_tag_independence Nat Nat
      (fun _ : Nat => STM32.__Internal.__CallbackManager.initial_state Nat) 0 1
      (__InplaceFunction.of_callable (fun n : Nat => n + 1)) 0 (by decide)).1

/-- Claim C9: move-assigning an `__InplaceFunction` to itself (the
`this == &other` case of the move assignment, on an addressed store) leaves
the whole store, the object's set state, and the behavior of its stored
callable unchanged. -/
theorem inplace_self_move_assign_noop (ι σ : Type) [DecidableEq ι]
    (m : ι → __InplaceFunction σ) (a : ι) (s : σ) :
    __InplaceFunction.move_assign_mem m a a = m
  ∧ (__InplaceFunction.move_assign_mem m a a a).is_set = (m a).is_set
  ∧ (__InplaceFunction.move_assign_mem m a a a).call s = (m a).call s := by
  refine ⟨?_, ?_, ?_⟩ <;> simp [__InplaceFunction.move_assign_mem]

/-- Claim C10: `__FixedCallback` and `__InplaceFunction` are behaviorally
equivalent: every sequence of default-constructions, constructions and
assignments from callables, move-constructions, move-assignments (including
self-assignment), invocations, resets, and is-set queries, run over the two
types from the same starting world, leaves every stored object in the same
state, produces the same observable world, and answers every is-set query
identically. -/
theorem fixed_inplace_equivalent (σ : Type) (ops : List (CallbackOp σ)) (s : σ) :
    (∀ i, ((runFixed ops (initFixedState σ s)).mem i).slot
        = ((runInplace ops (initInplaceState σ s)).mem i).slot)
  ∧ (runFixed ops (initFixedState σ s)).world
      = (runInplace ops (initInplaceState σ s)).world
  ∧ (runFixed ops (initFixedState σ s)).queries
      = (runInplace ops (initInplaceState σ s)).queries := by
  have h := run_bisim σ ops (initFixedState σ s) (initInplaceState σ s)
    (fun i => rfl) rfl rfl rfl
  exact ⟨h.1, h.2.2.1, h.2.2.2⟩
